import Mathlib

/-!
Verification development for the `bounces` two-body collision demo
(`src/pages/index.tsx`).  The repository configures a matter-js world:
a material table mapping material names to restitution coefficients,
a `createSquare` constructor deriving mass from size, a launch with
equal opposite horizontal speeds, a `collisionStart` handler that
squishes rubber bodies via `Matter.Body.scale` and schedules a reversal
with `setTimeout`, and `handleReset` tearing the scene down.

Numbers are embedded as rationals (the source's arithmetic on these
values is exact decimal arithmetic at the scales involved; the claims
themselves are stated up to float tolerance).  matter-js primitives the
source calls are embedded with their documented semantics; parts of the
physics core that the repository delegates entirely to the engine
(dynamic-pair resolution, the tick loop) are modelled from the spec and
marked as such on their doc comments.
-/

namespace Bounces

/-- Material identifiers, from the `materials` table keys of
`src/src/pages/index.tsx` lines 6-11 (`rubber`, `metal`, `wood`,
`plastic`). -/
inductive Material where
  | rubber
  | metal
  | wood
  | plastic
deriving DecidableEq, Repr

/-- Restitution table, `src/src/pages/index.tsx` lines 6-11:
rubber 0.9, metal 0.2, wood 0.5, plastic 0.7. -/
def materials : Material → ℚ
  | .rubber => 9/10
  | .metal => 2/10
  | .wood => 5/10
  | .plastic => 7/10

/-- A 2-D vector / point. -/
structure Vec2 where
  x : ℚ
  y : ℚ
deriving DecidableEq, Repr

/-- A matter-js body as the source uses it: centre position, velocity,
axis-aligned width and height (the geometry matter-js collision
detection reads), mass, restitution, friction coefficients, the string
label the source sets to the material name (`none` for bodies the
source leaves unlabelled, such as walls), and the static flag. -/
structure Body where
  position : Vec2
  velocity : Vec2
  width : ℚ
  height : ℚ
  mass : ℚ
  restitution : ℚ
  friction : ℚ
  frictionAir : ℚ
  label : Option Material
  isStatic : Bool
deriving DecidableEq, Repr

namespace Matter

/-- `Matter.Bodies.rectangle x y w h opts`: a rectangle body centred at
`(x, y)` with the given options; matter-js initialises mass as
density times area with default density 0.001. -/
def Bodies.rectangle (x y w h restitution friction frictionAir : ℚ)
    (label : Option Material) (static : Bool) : Body :=
  { position := ⟨x, y⟩
    velocity := ⟨0, 0⟩
    width := w
    height := h
    mass := w * h / 1000
    restitution := restitution
    friction := friction
    frictionAir := frictionAir
    label := label
    isStatic := static }

/-- `Matter.Body.setMass`: sets the body's mass directly. -/
def Body.setMass (b : Body) (m : ℚ) : Body :=
  { b with mass := m }

/-- `Matter.Body.setVelocity`: sets the body's velocity. -/
def Body.setVelocity (b : Body) (v : Vec2) : Body :=
  { b with velocity := v }

/-- `Matter.Body.scale b sx sy`: per the matter-js documentation,
scales the body "including updating physical properties (mass, area,
axes, inertia)" — it rewrites the body's vertices and bounds, i.e. the
very geometry matter-js collision detection reads (there is no separate
render-only size: `Matter.Render` draws the physics vertices).  Width
and height scale by the given factors and mass scales with the area. -/
def Body.scale (b : Body) (sx sy : ℚ) : Body :=
  { b with
    width := b.width * sx
    height := b.height * sy
    mass := b.mass * (sx * sy) }

end Matter

/-- `createSquare` from `src/src/pages/index.tsx` lines 69-81: looks up
the material's restitution, builds a square rectangle body at vertical
centre `height/2` with zero friction, labels it with the material, and
overrides the mass with `size * size / 1000`.  `height` is the arena
height captured by the closure. -/
def createSquare (height x size : ℚ) (material : Material) : Body :=
  let restitution := materials material
  let body := Matter.Bodies.rectangle x (height/2) size size restitution 0 0
    (some material) false
  let mass := size * size / 1000
  Matter.Body.setMass body mass

/-- The spec's `mass_of`: mass derived from size as `size² / k` with
`k = 1000`, matching `src/src/pages/index.tsx` line 78. -/
def mass_of (size : ℚ) : ℚ := size * size / 1000

/-- Launch speed constant, `src/src/pages/index.tsx` line 88. -/
def speed : ℚ := 25

/-- A `start` configuration: arena dimensions and the per-side size and
material choices read once at `handleStart`. -/
structure StartConfig where
  width : ℚ
  height : ℚ
  sizeLeft : ℚ
  sizeRight : ℚ
  materialLeft : Material
  materialRight : Material
deriving DecidableEq, Repr

/-- The left dynamic body as `handleStart` constructs and launches it
(`src/src/pages/index.tsx` lines 82, 89): spawned inset at
`50 + sizeLeft/2`, then given velocity `(speed, 0)`. -/
def startLeft (c : StartConfig) : Body :=
  Matter.Body.setVelocity (createSquare c.height (50 + c.sizeLeft/2) c.sizeLeft c.materialLeft)
    ⟨speed, 0⟩

/-- The right dynamic body as `handleStart` constructs and launches it
(`src/src/pages/index.tsx` lines 83, 90): spawned inset at
`width - 50 - sizeRight/2`, then given velocity `(-speed, 0)`. -/
def startRight (c : StartConfig) : Body :=
  Matter.Body.setVelocity (createSquare c.height (c.width - 50 - c.sizeRight/2) c.sizeRight c.materialRight)
    ⟨-speed, 0⟩

/-- Modelled from the spec: the refusal behaviour of spec section 7(a)
(missing from the source, which performs no validation) — construction
of a square is refused for a non-positive size, otherwise it behaves as
`createSquare`.  Used only to contrast with the source's actual
behaviour. -/
def createSquareChecked (height x size : ℚ) (material : Material) : Option Body :=
  if size ≤ 0 then none else some (createSquare height x size material)

/-- Claim C3: for every dynamic body, mass is the deterministic
function `size² / 1000` of its configured size, is strictly
monotonically increasing in size, and is not settable independently of
size (two squares of the same size have the same mass regardless of
every other parameter). -/
theorem mass_determined_by_size :
    (∀ h x s m, (createSquare h x s m).mass = mass_of s) ∧
    (∀ a b : ℚ, 0 < a → a < b → mass_of a < mass_of b) ∧
    (∀ h h2 x x2 s m m2, (createSquare h x s m).mass = (createSquare h2 x2 s m2).mass) := by
  refine ⟨fun h x s m => rfl, fun a b ha hab => ?_, fun h h2 x x2 s m m2 => rfl⟩
  have h2 : a * a < b * b := by nlinarith
  have h1000 : (0:ℚ) < 1000 := by norm_num
  exact div_lt_div_of_pos_right h2 h1000

/-- Witness for C3 at concrete sizes 30 and 150. -/
theorem mass_determined_by_size_witness :
    (0:ℚ) < 30 ∧ (30:ℚ) < 150 ∧ mass_of 30 < mass_of 150 :=
  ⟨by norm_num, by norm_num,
    mass_determined_by_size.2.1 30 150 (by norm_num) (by norm_num)⟩

/-- Claim C7: scaling a body by the squish factors (1.2 horizontally,
0.8 vertically) and then by their reciprocals restores the body exactly
(the source's `Matter.Body.scale(body, 1.2, 0.8)` then
`Matter.Body.scale(body, 1/1.2, 1/0.8)`, lines 97-98): the full
Squished to Normal round trip leaves every dimension (and the mass)
unchanged, with no drift. -/
theorem squish_scale_roundtrip (b : Body) :
    Matter.Body.scale (Matter.Body.scale b (12/10) (8/10)) (1/(12/10)) (1/(8/10)) = b := by
  cases b with
  | mk position velocity width height mass restitution friction frictionAir label static =>
    simp only [Matter.Body.scale]
    congr 1 <;> ring

/-- Claim C8: for every configuration, `handleStart` launches the two
dynamic bodies with zero vertical velocity and equal, opposite
horizontal speeds of the fixed constant 25
(`src/src/pages/index.tsx` lines 87-90). -/
theorem launch_velocities (c : StartConfig) :
    (startLeft c).velocity = ⟨25, 0⟩ ∧
    (startRight c).velocity = ⟨-25, 0⟩ ∧
    (startLeft c).velocity.x = -(startRight c).velocity.x ∧
    speed = 25 := by
  refine ⟨rfl, rfl, by norm_num [startLeft, startRight, Matter.Body.setVelocity, speed], rfl⟩

/-- Counterexample for claim C10: called with the non-positive size 0,
the core does not refuse construction — `createSquare` (the body
constructor `handleStart` uses, which performs no validation) returns a
constructed dynamic body of width 0 and mass 0, where the spec-modelled
checked constructor refuses. -/
theorem start_accepts_nonpositive_size :
    (createSquare 400 50 0 Material.metal).width = 0 ∧
    (createSquare 400 50 0 Material.metal).mass = 0 ∧
    (createSquare 400 50 0 Material.metal).isStatic = false ∧
    createSquareChecked 400 50 0 Material.metal = none := by
  refine ⟨rfl, by norm_num [createSquare, mass_of, Matter.Body.setMass, Matter.Bodies.rectangle], rfl, rfl⟩

/-- Claim C10 as amended: `handleStart` performs no validation at all:
for every size, including non-positive ones, `createSquare` constructs
the body with exactly the requested size (no clamping) and mass
`size²/1000`, signalling no error; unknown materials are excluded
statically by the TypeScript union type, not by any runtime check. -/
theorem start_never_refuses (h x s : ℚ) (m : Material) :
    (createSquare h x s m).width = s ∧
    (createSquare h x s m).height = s ∧
    (createSquare h x s m).mass = s * s / 1000 ∧
    (createSquare h x s m).isStatic = false := by
  exact ⟨rfl, rfl, rfl, rfl⟩

/-- Modelled from the spec: the effective restitution of a
dynamic-vs-dynamic pair (spec section 4.4,
`e = min(restitution(A), restitution(B))`).  The repository sets each
body's restitution from the `materials` table
(`src/src/pages/index.tsx` lines 70-72) but delegates pair resolution
to the physics engine, whose code is not part of this repository. -/
def effectiveRestitution (a b : Material) : ℚ :=
  min (materials a) (materials b)

/-- Modelled from the spec: 1-D two-body resolution along the collision
axis (spec section 4.4), using masses, pre-collision axis velocities
and the pair's effective restitution. -/
def resolvePair (a b : Material) (m1 m2 v1 v2 : ℚ) : ℚ × ℚ :=
  let e := effectiveRestitution a b
  (((m1 - e * m2) * v1 + (1 + e) * m2 * v2) / (m1 + m2),
   ((m2 - e * m1) * v2 + (1 + e) * m1 * v1) / (m1 + m2))

/-- Claim C1: the resolver pairs restitutions by the minimum: for every
material pair and positive masses the resolved velocities satisfy the
restitution bound with coefficient `min(restitution(A), restitution(B))`
(separation speed is exactly that minimum times the approach speed,
with momentum conserved), and in particular Metal (0.2) vs Wood (0.5)
resolves with `e = 0.2` — which is the minimum and differs from both
the average (0.35) and the maximum (0.5) of the two restitutions. -/
theorem resolver_uses_min_restitution (a b : Material) (m1 m2 v1 v2 : ℚ)
    (h1 : 0 < m1) (h2 : 0 < m2) :
    (resolvePair a b m1 m2 v1 v2).1 - (resolvePair a b m1 m2 v1 v2).2
      = effectiveRestitution a b * (v2 - v1) ∧
    m1 * (resolvePair a b m1 m2 v1 v2).1 + m2 * (resolvePair a b m1 m2 v1 v2).2
      = m1 * v1 + m2 * v2 ∧
    effectiveRestitution a b ≤ materials a ∧
    effectiveRestitution a b ≤ materials b ∧
    effectiveRestitution Material.metal Material.wood = 2/10 ∧
    effectiveRestitution Material.metal Material.wood
      ≠ (materials Material.metal + materials Material.wood) / 2 ∧
    effectiveRestitution Material.metal Material.wood
      ≠ max (materials Material.metal) (materials Material.wood) := by
  have hsum : m1 + m2 ≠ 0 := by positivity
  refine ⟨?_, ?_, min_le_left _ _, min_le_right _ _, ?_, ?_, ?_⟩
  · simp only [resolvePair]
    field_simp
    ring
  · simp only [resolvePair]
    field_simp
    ring
  · norm_num [effectiveRestitution, materials]
  · norm_num [effectiveRestitution, materials]
  · norm_num [effectiveRestitution, materials]

/-- Witness for C1: the Metal-vs-Wood scenario of the spec, size-150
Metal (mass 22.5) against size-30 Wood (mass 0.9), launched at +25 and
-25. -/
theorem resolver_uses_min_restitution_witness :
    (0:ℚ) < 45/2 ∧ (0:ℚ) < 9/10 ∧
    ((resolvePair Material.metal Material.wood (45/2) (9/10) 25 (-25)).1
        - (resolvePair Material.metal Material.wood (45/2) (9/10) 25 (-25)).2
      = effectiveRestitution Material.metal Material.wood * ((-25) - 25) ∧
    (45/2 : ℚ) * (resolvePair Material.metal Material.wood (45/2) (9/10) 25 (-25)).1
        + (9/10 : ℚ) * (resolvePair Material.metal Material.wood (45/2) (9/10) 25 (-25)).2
      = (45/2 : ℚ) * 25 + (9/10 : ℚ) * (-25) ∧
    effectiveRestitution Material.metal Material.wood ≤ materials Material.metal ∧
    effectiveRestitution Material.metal Material.wood ≤ materials Material.wood ∧
    effectiveRestitution Material.metal Material.wood = 2/10 ∧
    effectiveRestitution Material.metal Material.wood
      ≠ (materials Material.metal + materials Material.wood) / 2 ∧
    effectiveRestitution Material.metal Material.wood
      ≠ max (materials Material.metal) (materials Material.wood)) :=
  ⟨by norm_num, by norm_num,
    resolver_uses_min_restitution Material.metal Material.wood (45/2) (9/10) 25 (-25)
      (by norm_num) (by norm_num)⟩

/-- The test of the `collisionStart` handler's guard,
`!body.isStatic && body.label === 'rubber'`
(`src/src/pages/index.tsx` line 96). -/
def isRubberDynamic (b : Body) : Bool :=
  !b.isStatic && (match b.label with
    | some Material.rubber => true
    | _ => false)

/-- The per-body action of the `collisionStart` handler
(`src/src/pages/index.tsx` lines 95-99): a non-static rubber body is
scaled by `Matter.Body.scale(body, 1.2, 0.8)` (the reversal is
scheduled separately via `setTimeout`); every other body is left
alone. -/
def collisionSquish (b : Body) : Body :=
  if isRubberDynamic b then Matter.Body.scale b (12/10) (8/10) else b

/-- Claim C2 fails on the code: for a size-60 rubber body, the
`collisionStart` handler calls `Matter.Body.scale(body, 1.2, 0.8)`,
which rewrites the body's one and only geometry — the vertices/bounds
matter-js collision detection reads — so while Squished the physics
bounding box is 72 by 48, not the Normal 60 by 60; deformation is not
confined to presentation geometry. -/
theorem squish_changes_collision_size :
    (createSquare 400 80 60 Material.rubber).width = 60 ∧
    (createSquare 400 80 60 Material.rubber).height = 60 ∧
    (collisionSquish (createSquare 400 80 60 Material.rubber)).width = 72 ∧
    (collisionSquish (createSquare 400 80 60 Material.rubber)).height = 48 := by
  refine ⟨rfl, rfl, ?_, ?_⟩ <;>
    norm_num [collisionSquish, isRubberDynamic, createSquare, Matter.Body.setMass,
      Matter.Bodies.rectangle, Matter.Body.scale]

/-- The observable state of the page after `handleStart`: the two
dynamic bodies (still referenced by the `collisionStart`, `setTimeout`
and `afterUpdate` closures even after the world is cleared), the
liveness of the render / engine refs and the runner, the pending
`setTimeout` squish reversals (each recorded by the body it captured:
`true` = left, `false` = right, in scheduling order), a body-mutation
counter (the spec's observation device, counting `Matter.Body.scale`
mutations), a telemetry-update counter for the `afterUpdate` handler,
the two displayed speeds, and the `started` flag. -/
structure SimState where
  leftBody : Body
  rightBody : Body
  worldHasBodies : Bool
  engineLive : Bool
  renderLive : Bool
  runnerLive : Bool
  pendingReversals : List Bool
  mutations : Nat
  telemetryUpdates : Nat
  displayLeft : ℚ
  displayRight : ℚ
  started : Bool
deriving DecidableEq, Repr

/-- Events that can be interleaved after `handleStart`: a
`collisionStart` notification involving one of the dynamic bodies, the
earliest pending `setTimeout` reversal firing, a runner tick (which
runs `Engine.update` and fires the `afterUpdate` telemetry handler),
and the user pressing Reset. -/
inductive SimEvent where
  | collideLeft
  | collideRight
  | fireReversal
  | tick
  | reset
deriving DecidableEq, Repr

/-- `handleReset` from `src/src/pages/index.tsx` lines 113-131: stops
the render and drops its ref, clears the world and engine and drops the
engine ref (both steps guarded on the refs being non-null), zeroes the
displayed speeds and clears `started`.  It contains no `clearTimeout`
and no `Matter.Runner.stop` — the runner created in `handleStart` is a
local variable no ref retains — so the pending reversals and the
running runner are untouched. -/
def handleReset (s : SimState) : SimState :=
  let s1 := if s.renderLive then { s with renderLive := false } else s
  let s2 := if s1.engineLive then
    { s1 with worldHasBodies := false, engineLive := false } else s1
  { s2 with displayLeft := 0, displayRight := 0, started := false }

/-- One event step of the page, from the handlers registered in
`handleStart` (`src/src/pages/index.tsx` lines 93-108) and
`handleReset` (lines 113-131).  A collision scales a rubber body by
(1.2, 0.8) and appends a `setTimeout` reversal; a pending reversal
fires unconditionally when due (nothing ever cancels it) and scales its
captured body by (1/1.2, 1/0.8); a tick fires while the runner runs
(nothing ever stops it) and publishes `|velocity.x|` of the captured
bodies; Reset runs `handleReset`. -/
def step (s : SimState) : SimEvent → SimState
  | .collideLeft =>
    if s.worldHasBodies && isRubberDynamic s.leftBody then
      { s with leftBody := Matter.Body.scale s.leftBody (12/10) (8/10)
               pendingReversals := s.pendingReversals ++ [true]
               mutations := s.mutations + 1 }
    else s
  | .collideRight =>
    if s.worldHasBodies && isRubberDynamic s.rightBody then
      { s with rightBody := Matter.Body.scale s.rightBody (12/10) (8/10)
               pendingReversals := s.pendingReversals ++ [false]
               mutations := s.mutations + 1 }
    else s
  | .fireReversal =>
    match s.pendingReversals with
    | [] => s
    | t :: rest =>
      if t then
        { s with leftBody := Matter.Body.scale s.leftBody (1/(12/10)) (1/(8/10))
                 pendingReversals := rest
                 mutations := s.mutations + 1 }
      else
        { s with rightBody := Matter.Body.scale s.rightBody (1/(12/10)) (1/(8/10))
                 pendingReversals := rest
                 mutations := s.mutations + 1 }
  | .tick =>
    if s.runnerLive then
      { s with telemetryUpdates := s.telemetryUpdates + 1
               displayLeft := |s.leftBody.velocity.x|
               displayRight := |s.rightBody.velocity.x| }
    else s
  | .reset => handleReset s

/-- Run a sequence of events from a state. -/
def run (s : SimState) (es : List SimEvent) : SimState :=
  es.foldl step s

/-- The state right after `handleStart` for a configuration
(`src/src/pages/index.tsx` lines 41-110): fresh engine, render and
runner all live, the two launched bodies in the world, no pending
timers, counters at zero, displays at zero, `started` set. -/
def startState (c : StartConfig) : SimState :=
  { leftBody := startLeft c
    rightBody := startRight c
    worldHasBodies := true
    engineLive := true
    renderLive := true
    runnerLive := true
    pendingReversals := []
    mutations := 0
    telemetryUpdates := 0
    displayLeft := 0
    displayRight := 0
    started := true }

/-- A state in which no World exists (before any `handleStart`): no
engine, render or runner, nothing scheduled, nothing displayed.  The
bodies slots hold inert placeholders that no closure references. -/
def noWorldState : SimState :=
  { leftBody := Matter.Bodies.rectangle 0 0 0 0 0 0 0 none true
    rightBody := Matter.Bodies.rectangle 0 0 0 0 0 0 0 none true
    worldHasBodies := false
    engineLive := false
    renderLive := false
    runnerLive := false
    pendingReversals := []
    mutations := 0
    telemetryUpdates := 0
    displayLeft := 0
    displayRight := 0
    started := false }

/-- The default configuration of the page: two size-60 rubber squares
in an 800 by 400 arena. -/
def defaultConfig : StartConfig :=
  { width := 800, height := 400, sizeLeft := 60, sizeRight := 60
    materialLeft := Material.rubber, materialRight := Material.rubber }

/-- Claim C4 fails on the code: in the interleaving collide-then-reset,
the squish reversal scheduled by `setTimeout` is still pending after
`handleReset` (which contains no `clearTimeout`), and when it fires it
executes `Matter.Body.scale` on the captured body — the body-mutation
counter, at 1 when reset returns, advances to 2 after reset. -/
theorem reset_leaves_reversal_scheduled :
    (run (startState defaultConfig) [SimEvent.collideLeft, SimEvent.reset]).started = false ∧
    (run (startState defaultConfig) [SimEvent.collideLeft, SimEvent.reset]).mutations = 1 ∧
    (run (startState defaultConfig) [SimEvent.collideLeft, SimEvent.reset]).pendingReversals
      = [true] ∧
    (run (startState defaultConfig)
      [SimEvent.collideLeft, SimEvent.reset, SimEvent.fireReversal]).mutations = 2 := by
  refine ⟨rfl, rfl, rfl, rfl⟩

/-- Claim C5 fails on the code: `handleReset` never stops the runner
(`Matter.Runner.stop` is never called; the runner is a local of
`handleStart`), so after reset the runner is still live, the next tick
still executes and publishes telemetry — the telemetry counter
advances and the displayed left speed is overwritten from 0 back to the
stale body's speed 25.  The second half of the claim does hold: reset
on a state with no World is a safe idempotent no-op, and reset is
idempotent in general. -/
theorem reset_keeps_ticking :
    (run (startState defaultConfig) [SimEvent.reset]).runnerLive = true ∧
    (run (startState defaultConfig) [SimEvent.reset]).displayLeft = 0 ∧
    (run (startState defaultConfig) [SimEvent.reset, SimEvent.tick]).telemetryUpdates = 1 ∧
    (run (startState defaultConfig) [SimEvent.reset, SimEvent.tick]).displayLeft = 25 ∧
    handleReset noWorldState = noWorldState ∧
    (∀ s : SimState, handleReset (handleReset s) = handleReset s) := by
  refine ⟨rfl, rfl, rfl, ?_, rfl, ?_⟩
  · show |(25:ℚ)| = 25
    norm_num
  · intro s
    obtain ⟨lb, rb, w, e, r, ru, p, m, t, dl, dr, st⟩ := s
    cases r <;> cases e <;> rfl

/-- Claim C6 fails on the code: a second `collisionStart` on a rubber
body that is already Squished applies `Matter.Body.scale(body, 1.2,
0.8)` again — after two re-entrant collisions the size-60 body's width
is 60·1.2² = 86.4, not the single application 72, and two independent
reversal timers are pending (the first timer is not restarted). -/
theorem reentrant_squish_compounds :
    (run (startState defaultConfig)
        [SimEvent.collideLeft, SimEvent.collideLeft]).leftBody.width = 432/5 ∧
    (432/5 : ℚ) ≠ 60 * (12/10) ∧
    (run (startState defaultConfig)
        [SimEvent.collideLeft, SimEvent.collideLeft]).pendingReversals = [true, true] := by
    refine ⟨?_, by norm_num, rfl⟩
    show (60 : ℚ) * (12/10) * (12/10) = 432/5
    norm_num

/-- World gravity: `world.gravity.y = 0` per `src/src/pages/index.tsx`
line 59; the horizontal component is the matter-js default 0. -/
def gravity : Vec2 := ⟨0, 0⟩

/-- The pair of dynamic bodies a World owns. -/
structure PhysPair where
  left : Body
  right : Body
deriving DecidableEq, Repr

/-- Modelled from the spec: one integration step of the simulation loop
(spec section 4.6; the loop itself lives in the physics engine, outside
this repository): velocity accelerates by gravity and position advances
by the velocity. -/
def integrateBody (b : Body) : Body :=
  { b with
    velocity := ⟨b.velocity.x + gravity.x, b.velocity.y + gravity.y⟩
    position := ⟨b.position.x + (b.velocity.x + gravity.x),
                 b.position.y + (b.velocity.y + gravity.y)⟩ }

/-- Modelled from the spec: a dynamic body bouncing off a side wall
(spec section 4.4) reflects the horizontal velocity component,
`v = -v * restitution`; the vertical component is untouched. -/
def bounceSideWall (b : Body) : Body :=
  { b with velocity := ⟨-b.velocity.x * b.restitution, b.velocity.y⟩ }

/-- Modelled from the spec: a dynamic body bouncing off the ground or
ceiling (spec section 4.4) reflects the vertical velocity component;
the horizontal component is untouched. -/
def bounceFlatWall (b : Body) : Body :=
  { b with velocity := ⟨b.velocity.x, -b.velocity.y * b.restitution⟩ }

/-- Modelled from the spec: dynamic-vs-dynamic resolution (spec section
4.4) applied along the horizontal collision axis, using the bodies'
masses, their horizontal velocity components and the pair's minimum
restitution; the components orthogonal to the axis are unaffected. -/
def resolveBodies (p : PhysPair) : PhysPair :=
  let e := min p.left.restitution p.right.restitution
  let m1 := p.left.mass
  let m2 := p.right.mass
  let v1 := p.left.velocity.x
  let v2 := p.right.velocity.x
  { left := { p.left with
      velocity := ⟨((m1 - e * m2) * v1 + (1 + e) * m2 * v2) / (m1 + m2),
                   p.left.velocity.y⟩ }
    right := { p.right with
      velocity := ⟨((m2 - e * m1) * v2 + (1 + e) * m1 * v1) / (m1 + m2),
                   p.right.velocity.y⟩ } }

/-- The events that can change the dynamic bodies during a World's
lifetime: a loop integration step, either body bouncing off a side
wall or off the ground/ceiling, and the dynamic pair colliding. -/
inductive PhysEvent where
  | step
  | leftSideWall
  | rightSideWall
  | leftFlatWall
  | rightFlatWall
  | collide
deriving DecidableEq, Repr

/-- Apply one physics event to the pair. -/
def stepPhys (p : PhysPair) : PhysEvent → PhysPair
  | .step => ⟨integrateBody p.left, integrateBody p.right⟩
  | .leftSideWall => ⟨bounceSideWall p.left, p.right⟩
  | .rightSideWall => ⟨p.left, bounceSideWall p.right⟩
  | .leftFlatWall => ⟨bounceFlatWall p.left, p.right⟩
  | .rightFlatWall => ⟨p.left, bounceFlatWall p.right⟩
  | .collide => resolveBodies p

/-- The dynamic pair as `handleStart` spawns and launches it. -/
def startPair (c : StartConfig) : PhysPair :=
  ⟨startLeft c, startRight c⟩

/-- Purely horizontal motion: both bodies have zero vertical velocity
and sit at the spawn height `h`. -/
def HorizOnly (h : ℚ) (p : PhysPair) : Prop :=
  p.left.velocity.y = 0 ∧ p.right.velocity.y = 0 ∧
  p.left.position.y = h ∧ p.right.position.y = h

lemma horizOnly_step (h : ℚ) (p : PhysPair) (hp : HorizOnly h p) (e : PhysEvent) :
    HorizOnly h (stepPhys p e) := by
  obtain ⟨h1, h2, h3, h4⟩ := hp
  cases e <;>
    simp [stepPhys, integrateBody, bounceSideWall, bounceFlatWall, resolveBodies,
      gravity, HorizOnly, h1, h2, h3, h4]

lemma horizOnly_run (h : ℚ) (es : List PhysEvent) (p : PhysPair) (hp : HorizOnly h p) :
    HorizOnly h (es.foldl stepPhys p) := by
  induction es generalizing p with
  | nil => exact hp
  | cons e es ih => exact ih _ (horizOnly_step h p hp e)

/-- Claim C9: throughout a World's lifetime each dynamic body moves
only horizontally — starting from the spawn state of any configuration
(zero vertical velocity, `world.gravity.y = 0`), after any sequence of
integration steps, wall bounces and pair collisions, both bodies'
vertical velocity components are still zero and both still sit at the
spawn height `height/2`: no collision resolution ever touches the
vertical component. -/
theorem horizontal_motion_invariant (c : StartConfig) (es : List PhysEvent) :
    (es.foldl stepPhys (startPair c)).left.velocity.y = 0 ∧
    (es.foldl stepPhys (startPair c)).right.velocity.y = 0 ∧
    (es.foldl stepPhys (startPair c)).left.position.y = c.height / 2 ∧
    (es.foldl stepPhys (startPair c)).right.position.y = c.height / 2 :=
  horizOnly_run (c.height / 2) es (startPair c) ⟨rfl, rfl, rfl, rfl⟩

end Bounces
